import Mathlib

/-!
Verification of the autoscrap4rs action-dispatch engine (src/lib.rs).

The browser driver (playwright) is an external capability; it is modelled by
an oracle `PageDesc` that fixes, per selector / url, how each driver call the
code makes behaves, together with a state `PageState` recording the observable
effects of the run (navigation attempts, clicks, fills, checkbox states,
written files, printed output, close calls).  `performAction` and
`performScraping` are shallow embeddings of `perform_action` and
`perform_scraping`; a Rust `?` becomes an early `.err` return, and a Rust
panic (an `unwrap` of `None`) becomes the `.panic` outcome.
-/

namespace Autoscrap

/-- Outcome of reading a named attr or the text content of an element handle:
the driver call itself may fail (`Err(_)` in Rust), succeed with no value
(`Ok(None)`), or succeed with a string (`Ok(Some _)`). -/
inductive ReadResult where
  | failed
  | missing
  | value (s : String)
deriving DecidableEq

/-- An element handle, seen through the two read operations the code uses:
`get_attribute(name)` and `text_content()`. -/
structure Elem where
  attrRead : String → ReadResult
  textRead : ReadResult

/-- A navigation response (`playwright::api::Response`): fetching its body
can fail; otherwise it yields bytes. -/
structure Resp where
  bodyFails : Bool
  body : List Nat

/-- Error taxonomy of the execution contract.  The Rust code propagates
boxed driver errors; kinds are assigned by provenance: `goto` failures are
navigation errors, element interaction failures are element errors, script
evaluation failures are script errors, `fs::write` failures are io errors,
and other driver-side failures (query, attr read, `is_checked`,
session setup, close) are driver errors. -/
inductive Err where
  | navigationError
  | elementError (msg : String)
  | scriptError
  | ioError
  | driverError (msg : String)
deriving DecidableEq

/-- Observable state of a run: the page / filesystem / stdout effects the
code can produce, plus counters for the close calls of the session. -/
structure PageState where
  /-- checked-state of the checkbox each selector resolves to -/
  checkboxes : String → Bool
  /-- log of successful single clicks, by selector, in order -/
  clicks : List String
  /-- log of successful form fills, (selector, text), in order -/
  fills : List (String × String)
  /-- log of urls for which a `goto` was attempted, in order -/
  navAttempts : List String
  /-- lines printed to stdout, in order -/
  output : List String
  /-- contents of local files written by DownloadFile -/
  files : String → Option (List Nat)
  /-- number of `browser.close()` calls made -/
  closedBrowser : Nat
  /-- number of `page.close(..)` calls made -/
  closedPage : Nat

/-- Driver oracle: fixes the result of every driver call the code makes.
Failure flags select the error leg of the corresponding Rust `Result`. -/
structure PageDesc where
  /-- `goto_builder(url).goto()` fails -/
  gotoFails : String → Bool
  /-- response returned by a successful `goto` (`Ok(None)` is possible) -/
  gotoResp : String → Option Resp
  /-- `query_selector_all(selector)` fails -/
  queryAllFails : String → Bool
  /-- element handles matched by `query_selector_all(selector)` -/
  queryAll : String → List Elem
  /-- `query_selector(selector)` fails -/
  queryOneFails : String → Bool
  /-- element handle found by a successful `query_selector(selector)` -/
  queryOne : String → Option Elem
  /-- `click_builder(selector).click()` fails -/
  clickFails : String → Bool
  /-- `fill_builder(selector, text).fill()` fails -/
  fillFails : String → String → Bool
  /-- `element.is_checked()` fails for the checkbox at the selector -/
  isCheckedFails : String → Bool
  /-- `element.click_builder().click()` fails for the checkbox at the selector -/
  elemClickFails : String → Bool
  /-- `dblclick_builder(selector).dblclick()` fails -/
  dblclickFails : String → Bool
  /-- right-button `click_builder(selector).click()` fails -/
  rightClickFails : String → Bool
  /-- `hover_builder(selector)...` fails -/
  hoverFails : String → Bool
  /-- `page.eval(script)` fails -/
  evalFails : String → Bool
  /-- `fs::write(dist_path, ..)` fails -/
  writeFails : String → Bool
  /-- playwright initialize / install_chromium / launch / context / new_page fails -/
  setupFails : Bool
  /-- `browser.close()` fails -/
  closeBrowserFails : Bool
  /-- `page.close(..)` fails -/
  closePageFails : Bool

/-- Outcome of an embedded Rust computation: normal return, error return
(`Err(_)` propagated by `?`), or panic.  The state is carried on every leg so
that the effects present at exit remain observable. -/
inductive Res (α : Type) where
  | ok (a : α) (st : PageState)
  | err (e : Err) (st : PageState)
  | panic (msg : String) (st : PageState)

/-- The state at exit, whatever the outcome. -/
def Res.state {α : Type} : Res α → PageState
  | .ok _ st => st
  | .err _ st => st
  | .panic _ st => st

/-- Whether the outcome is a normal return. -/
def Res.isOk {α : Type} : Res α → Bool
  | .ok _ _ => true
  | _ => false

/-- Whether the outcome is an error return. -/
def Res.isErr {α : Type} : Res α → Bool
  | .err _ _ => true
  | _ => false

/-- Whether the outcome is a panic. -/
def Res.isPanic {α : Type} : Res α → Bool
  | .panic _ _ => true
  | _ => false

/-- The error returned, when the outcome is an error return. -/
def Res.error? {α : Type} : Res α → Option Err
  | .err e _ => some e
  | _ => none

/-- The value returned, when the outcome is a normal return. -/
def Res.value? {α : Type} : Res α → Option α
  | .ok a _ => some a
  | _ => none

/-- The `Action` enum of src/lib.rs, variant for variant. -/
inductive Action where
  | goTo (url : String)
  | click (selector : String)
  | input (selector text : String)
  | extract (selector : String) (attrName : Option String)
  | wait (milliseconds : Nat)
  | login (url username_selector password_selector username password submit_selector : String)
  | navigate (selector attrName : String)
  | fillCheckbox (selector : String) (checked : Bool)
  | selectDropdown (selector option : String)
  | hover (selector : String)
  | doubleClick (selector : String)
  | rightClick (selector : String)
  | runScript (script : String)
  | downloadFile (url dist_path : String)

/-- The `ScrapingTask` struct of src/lib.rs. -/
structure ScrapingTask where
  name : String
  actions : List Action

/-- The read the Extract arm performs on one element handle:
`element.get_attribute(attr)` when an attr name was supplied,
`element.text_content()` otherwise. -/
def readOf (attrName : Option String) (e : Elem) : ReadResult :=
  match attrName with
  | some attr => e.attrRead attr
  | none => e.textRead

/-- The `for element in elements` loop of the Extract arm: read each element
in order; a driver failure propagates (`?`); the first present value is
printed and the action returns; a missing value moves to the next element;
an exhausted list returns normally. -/
def extractLoop (attrName : Option String) : List Elem → PageState → Res Unit
  | [], st => .ok () st
  | e :: rest, st =>
    match readOf attrName e with
    | .failed => .err (.driverError "element read") st
    | .value content =>
      .ok () { st with output := st.output ++ ["this content: " ++ content] }
    | .missing => extractLoop attrName rest st

/-- Shallow embedding of `perform_action(page, action)`, arm for arm. -/
def performAction (pd : PageDesc) (a : Action) (st : PageState) : Res Unit :=
  match a with
  | .goTo url =>
    -- page.goto_builder(url).goto().await?  (the Option<Response> is discarded)
    let st1 := { st with navAttempts := st.navAttempts ++ [url] }
    if pd.gotoFails url then .err .navigationError st1 else .ok () st1
  | .click selector =>
    -- page.click_builder(selector).click().await?
    -- a successful single click on a checkbox toggles its checked state
    if pd.clickFails selector then .err (.elementError selector) st
    else .ok () { st with
      clicks := st.clicks ++ [selector],
      checkboxes := fun s => if s = selector then !(st.checkboxes s) else st.checkboxes s }
  | .input selector text =>
    -- page.fill_builder(selector, text).fill().await?
    if pd.fillFails selector text then .err (.elementError selector) st
    else .ok () { st with fills := st.fills ++ [(selector, text)] }
  | .extract selector attrName =>
    -- let elements = page.query_selector_all(selector).await?;
    if pd.queryAllFails selector then .err (.driverError "query_selector_all") st
    else extractLoop attrName (pd.queryAll selector) st
  | .wait _ =>
    -- page.wait_for_timeout(..) never fails
    .ok () st
  | .login url username_selector password_selector username password submit_selector =>
    let st1 := { st with navAttempts := st.navAttempts ++ [url] }
    if pd.gotoFails url then .err .navigationError st1
    else if pd.fillFails username_selector username then .err (.elementError username_selector) st1
    else
      let st2 := { st1 with fills := st1.fills ++ [(username_selector, username)] }
      if pd.fillFails password_selector password then .err (.elementError password_selector) st2
      else
        let st3 := { st2 with fills := st2.fills ++ [(password_selector, password)] }
        if pd.clickFails submit_selector then .err (.elementError submit_selector) st3
        else .ok () { st3 with
          clicks := st3.clicks ++ [submit_selector],
          checkboxes := fun s =>
            if s = submit_selector then !(st3.checkboxes s) else st3.checkboxes s }
          -- page.wait_for_timeout(2000f64) then Ok(())
  | .navigate selector attrName =>
    -- query failure propagates (`?`); Ok(None) returns Ok(()) silently
    if pd.queryOneFails selector then .err (.driverError "query_selector") st
    else
      match pd.queryOne selector with
      | none => .ok () st
      | some e =>
        -- get_attribute is matched without `?`: Ok(Some) proceeds, anything else returns Ok(())
        match e.attrRead attrName with
        | .failed => .ok () st
        | .missing => .ok () st
        | .value href =>
          let st1 := { st with navAttempts := st.navAttempts ++ [href] }
          if pd.gotoFails href then
            .err .navigationError
              { st1 with output := st1.output ++ ["Failed to navigate to " ++ href] }
          else .ok () st1
  | .fillCheckbox selector checked =>
    -- match query_selector(..).await { Ok(checkbox) => checkbox.unwrap(), _ => Err(..) }:
    -- the `_` arm only catches the driver failure; Ok(None) hits unwrap() and panics
    if pd.queryOneFails selector then .err (.elementError "Failed to find checkbox") st
    else
      match pd.queryOne selector with
      | none => .panic "called Option::unwrap on a None value" st
      | some _ =>
        if pd.isCheckedFails selector then .err (.driverError "is_checked") st
        else
          let is_checked := st.checkboxes selector
          if is_checked ≠ checked then
            if pd.elemClickFails selector then .err (.elementError selector) st
            else .ok () { st with
              clicks := st.clicks ++ [selector],
              checkboxes := fun s => if s = selector then !is_checked else st.checkboxes s }
          else .ok () st
  | .selectDropdown _ _ =>
    -- select_option_builder(selector).add_value(option.to_string()) builds a
    -- request but is never awaited: nothing is dispatched to the session
    .ok () st
  | .hover selector =>
    -- hover_builder(selector).clear_force().goto().await?
    if pd.hoverFails selector then .err (.elementError selector) st else .ok () st
  | .doubleClick selector =>
    -- dblclick_builder(selector).dblclick().await?  (a double click toggles a
    -- checkbox twice, leaving its state unchanged)
    if pd.dblclickFails selector then .err (.elementError selector) st
    else .ok () { st with clicks := st.clicks ++ [selector] }
  | .rightClick selector =>
    -- click_builder(selector).button(MouseButton::Right).click().await?
    if pd.rightClickFails selector then .err (.elementError selector) st
    else .ok () { st with clicks := st.clicks ++ [selector] }
  | .runScript script =>
    -- page.eval(script).await?
    if pd.evalFails script then .err .scriptError st else .ok () st
  | .downloadFile url dist_path =>
    -- let response = page.goto_builder(url).goto().await?;
    let st1 := { st with navAttempts := st.navAttempts ++ [url] }
    if pd.gotoFails url then .err .navigationError st1
    else
      match pd.gotoResp url with
      | none => .panic "called Option::unwrap on a None response" st1
      | some resp =>
        -- let body = response.unwrap().body().await?;
        if resp.bodyFails then .err .navigationError st1
        else if pd.writeFails dist_path then .err .ioError st1
        else .ok () { st1 with
          files := fun p => if p = dist_path then some resp.body else st1.files p }

/-- The `for action in &task.actions { perform_action(&page, action).await?; }`
loop of `perform_scraping`. -/
def runActions (pd : PageDesc) : List Action → PageState → Res Unit
  | [], st => .ok () st
  | a :: rest, st =>
    match performAction pd a st with
    | .ok _ st1 => runActions pd rest st1
    | .err e st1 => .err e st1
    | .panic m st1 => .panic m st1

/-- Observer of the loop: the list of actions that get attempted, in order.
An action is attempted when `perform_action` is entered on it; the loop moves
past it only when it returns `Ok`. -/
def attemptedActions (pd : PageDesc) : List Action → PageState → List Action
  | [], _ => []
  | a :: rest, st =>
    match performAction pd a st with
    | .ok _ st1 => a :: attemptedActions pd rest st1
    | _ => [a]

/-- Shallow embedding of `perform_scraping(task)`: session setup, the action
loop, then `browser.close()` followed by `page.close(Some(false))` — the two
close calls are reached only when the whole loop returned `Ok`.  `results` is
created empty and never pushed to, and is returned as is. -/
def performScraping (pd : PageDesc) (task : ScrapingTask) (st : PageState) :
    Res (List String) :=
  if pd.setupFails then .err (.driverError "setup") st
  else
    let results : List String := []
    match runActions pd task.actions st with
    | .err e st1 => .err e st1
    | .panic m st1 => .panic m st1
    | .ok _ st1 =>
      let st2 := { st1 with closedBrowser := st1.closedBrowser + 1 }
      if pd.closeBrowserFails then .err (.driverError "browser close") st2
      else
        let st3 := { st2 with closedPage := st2.closedPage + 1 }
        if pd.closePageFails then .err (.driverError "page close") st3
        else .ok results st3

/-! ### Task-file loading (`load_json`)

`load_json` reads a file and runs `serde_json::from_str::<Vec<ScrapingTask>>`.
File IO and the string-level JSON syntax layer are external; the document
contract of spec §6 is modelled over already-parsed document values. -/

/-- A parsed document value (the shape layer of the task-file format). -/
inductive Json where
  | null
  | bool (b : Bool)
  | num (n : Nat)
  | str (s : String)
  | arr (xs : List Json)
  | obj (fields : List (String × Json))

/-- Error produced when a document does not deserialize into the task list. -/
structure ParseError where
  msg : String
deriving DecidableEq

/-- First value bound to key `k` in an object's field list. -/
def findField (fields : List (String × Json)) (k : String) : Option Json :=
  match fields with
  | [] => none
  | (k1, v) :: rest => if k1 = k then some v else findField rest k

/-- Require an object value. -/
def expectObj : Json → Except ParseError (List (String × Json))
  | .obj fields => .ok fields
  | _ => .error ⟨"expected object"⟩

/-- Required string field; missing or wrongly typed fields are errors. -/
def getStr (fields : List (String × Json)) (k : String) : Except ParseError String :=
  match findField fields k with
  | some (.str s) => .ok s
  | some _ => .error ⟨"invalid type for field " ++ k⟩
  | none => .error ⟨"missing field " ++ k⟩

/-- Required unsigned-integer field. -/
def getNat (fields : List (String × Json)) (k : String) : Except ParseError Nat :=
  match findField fields k with
  | some (.num n) => .ok n
  | some _ => .error ⟨"invalid type for field " ++ k⟩
  | none => .error ⟨"missing field " ++ k⟩

/-- Required boolean field. -/
def getBool (fields : List (String × Json)) (k : String) : Except ParseError Bool :=
  match findField fields k with
  | some (.bool b) => .ok b
  | some _ => .error ⟨"invalid type for field " ++ k⟩
  | none => .error ⟨"missing field " ++ k⟩

/-- Optional string field (`Option<String>` in the struct): omitted or null
means none. -/
def getOptStr (fields : List (String × Json)) (k : String) :
    Except ParseError (Option String) :=
  match findField fields k with
  | none => .ok none
  | some .null => .ok none
  | some (.str s) => .ok (some s)
  | some _ => .error ⟨"invalid type for field " ++ k⟩

/-- Error-propagating map: the first entry that fails to convert fails the
whole list, and a successful result converts every entry. -/
def mapExcept {α β : Type} (f : α → Except ParseError β) :
    List α → Except ParseError (List β)
  | [] => .ok []
  | x :: xs =>
    match f x with
    | .error e => .error e
    | .ok y =>
      match mapExcept f xs with
      | .error e => .error e
      | .ok ys => .ok (y :: ys)

/-- Modelled from the spec: deserialization of one action object (spec §6 —
the string-level deserializer, `serde_json`, is an external collaborator).
An action is an externally tagged object whose single key is the variant
discriminant; an unknown discriminant, a missing required field, or a wrongly
typed field is an error, while the optional `attribute` of Extract may be
omitted or null. -/
def parseAction (j : Json) : Except ParseError Action :=
  match j with
  | .obj [(tag, payload)] =>
    if tag = "GoTo" then do
      let fields ← expectObj payload
      let url ← getStr fields "url"
      return .goTo url
    else if tag = "Click" then do
      let fields ← expectObj payload
      let selector ← getStr fields "selector"
      return .click selector
    else if tag = "Input" then do
      let fields ← expectObj payload
      let selector ← getStr fields "selector"
      let text ← getStr fields "text"
      return .input selector text
    else if tag = "Extract" then do
      let fields ← expectObj payload
      let selector ← getStr fields "selector"
      let attr ← getOptStr fields "attribute"
      return .extract selector attr
    else if tag = "Wait" then do
      let fields ← expectObj payload
      let ms ← getNat fields "milliseconds"
      return .wait ms
    else if tag = "Login" then do
      let fields ← expectObj payload
      let url ← getStr fields "url"
      let us ← getStr fields "username_selector"
      let ps ← getStr fields "password_selector"
      let u ← getStr fields "username"
      let p ← getStr fields "password"
      let ss ← getStr fields "submit_selector"
      return .login url us ps u p ss
    else if tag = "Navigate" then do
      let fields ← expectObj payload
      let selector ← getStr fields "selector"
      let attr ← getStr fields "attribute"
      return .navigate selector attr
    else if tag = "FillCheckbox" then do
      let fields ← expectObj payload
      let selector ← getStr fields "selector"
      let checked ← getBool fields "checked"
      return .fillCheckbox selector checked
    else if tag = "SelectDropdown" then do
      let fields ← expectObj payload
      let selector ← getStr fields "selector"
      let opt ← getStr fields "option"
      return .selectDropdown selector opt
    else if tag = "Hover" then do
      let fields ← expectObj payload
      let selector ← getStr fields "selector"
      return .hover selector
    else if tag = "DoubleClick" then do
      let fields ← expectObj payload
      let selector ← getStr fields "selector"
      return .doubleClick selector
    else if tag = "RightClick" then do
      let fields ← expectObj payload
      let selector ← getStr fields "selector"
      return .rightClick selector
    else if tag = "RunScript" then do
      let fields ← expectObj payload
      let script ← getStr fields "script"
      return .runScript script
    else if tag = "DownloadFile" then do
      let fields ← expectObj payload
      let url ← getStr fields "url"
      let dp ← getStr fields "dist_path"
      return .downloadFile url dp
    else .error ⟨"unknown variant"⟩
  | _ => .error ⟨"expected externally tagged enum"⟩

/-- Modelled from the spec: deserialization of one task object (spec §6),
with required `name` string and `actions` array. -/
def parseTask (j : Json) : Except ParseError ScrapingTask := do
  let fields ← expectObj j
  let name ← getStr fields "name"
  match findField fields "actions" with
  | some (.arr items) =>
    let acts ← mapExcept parseAction items
    return ⟨name, acts⟩
  | some _ => .error ⟨"invalid type for field actions"⟩
  | none => .error ⟨"missing field actions"⟩

/-- Modelled from the spec: the load operation of `load_json` past the
external file-read and syntax layer — the whole document must be an array of
task objects, deserialized all-or-nothing. -/
def loadJson : Json → Except ParseError (List ScrapingTask)
  | .arr items => mapExcept parseTask items
  | _ => .error ⟨"expected array of tasks"⟩

/-! ### Concrete fixtures -/

/-- Fresh run state: nothing clicked, filled, navigated, printed or written,
all checkboxes unchecked, no close calls. -/
def st0 : PageState where
  checkboxes := fun _ => false
  clicks := []
  fills := []
  navAttempts := []
  output := []
  files := fun _ => none
  closedBrowser := 0
  closedPage := 0

/-- A session in which every driver call succeeds, selectors match nothing,
and responses carry empty bodies. -/
def pdBase : PageDesc where
  gotoFails := fun _ => false
  gotoResp := fun _ => some ⟨false, []⟩
  queryAllFails := fun _ => false
  queryAll := fun _ => []
  queryOneFails := fun _ => false
  queryOne := fun _ => none
  clickFails := fun _ => false
  fillFails := fun _ _ => false
  isCheckedFails := fun _ => false
  elemClickFails := fun _ => false
  dblclickFails := fun _ => false
  rightClickFails := fun _ => false
  hoverFails := fun _ => false
  evalFails := fun _ => false
  writeFails := fun _ => false
  setupFails := false
  closeBrowserFails := false
  closePageFails := false

/-- An element handle whose reads all come back `Ok(None)`. -/
def elemNone : Elem := ⟨fun _ => .missing, .missing⟩

/-- An element handle whose text content is "Hello". -/
def elemHello : Elem := ⟨fun _ => .missing, .value "Hello"⟩

/-- An element handle whose text content is "x". -/
def elemX : Elem := ⟨fun _ => .missing, .value "x"⟩

/-- A session where `h1` matches one element containing "Hello". -/
def pdC1 : PageDesc :=
  { pdBase with queryAll := fun s => if s = "h1" then [elemHello] else [] }

/-- The end-to-end task of the spec: GoTo then Extract h1. -/
def taskT1 : ScrapingTask :=
  ⟨"T1", [.goTo "https://example.test", .extract "h1" none]⟩

/-! ### C10 -/

/-- C10: for every selector and option, SelectDropdown returns success and the
session state is unchanged — the select-option request is built but never
awaited or dispatched, so the action cannot fail. -/
theorem c10_selectDropdown_noop (pd : PageDesc) (selector opt : String)
    (st : PageState) :
    performAction pd (.selectDropdown selector opt) st = .ok () st := rfl

/-! ### C1 -/

/-- C1 counterexample: executing task T1 against a session where `h1` contains
"Hello" completes without error, but the caller receives `Ok([])` — the
extracted value "Hello" is only printed to stdout, so the claim that the
task-execution operation returns the extracted values to the caller is false
at this input. -/
theorem c1_counterexample :
    (performScraping pdC1 taskT1 st0).value? = some []
    ∧ (performScraping pdC1 taskT1 st0).state.output = ["this content: Hello"]
    ∧ some ([] : List String) ≠ some ["Hello"] :=
  ⟨rfl, rfl, by decide⟩

/-- C1 (amended): the task-execution operation never returns a non-empty value
list — whenever it returns `Ok`, the value list is empty, extracted values
having been printed rather than collected; in particular T1 against a session
where `h1` contains "Hello" completes with `Ok([])`, no error, and the line
`this content: Hello` printed. -/
theorem c1_task_returns_empty_results :
    (∀ (pd : PageDesc) (task : ScrapingTask) (st : PageState),
      (performScraping pd task st).value? = none
      ∨ (performScraping pd task st).value? = some [])
    ∧ (performScraping pdC1 taskT1 st0).isOk = true
    ∧ (performScraping pdC1 taskT1 st0).value? = some []
    ∧ (performScraping pdC1 taskT1 st0).state.output = ["this content: Hello"] := by
  refine ⟨?_, rfl, rfl, rfl⟩
  intro pd task st
  by_cases hs : pd.setupFails
  · simp [performScraping, hs, Res.value?]
  · simp only [performScraping, hs, Bool.false_eq_true, if_false]
    cases h : runActions pd task.actions st with
    | ok a st1 =>
      by_cases hb : pd.closeBrowserFails <;> by_cases hp : pd.closePageFails <;>
        simp [hb, hp, Res.value?]
    | err e st1 => simp [Res.value?]
    | panic m st1 => simp [Res.value?]

/-! ### C2 -/

/-- A session where every `click_builder(..).click()` call fails. -/
def pdC2 : PageDesc := { pdBase with clickFails := fun _ => true }

/-- The C2 failing input: a task whose first action fails. -/
def taskC2 : ScrapingTask := ⟨"t", [.click "a", .goTo "u"]⟩

/-- C2: at the failing input — a task whose first action fails — the run
returns the error to the caller with zero `browser.close()` and zero
`page.close(..)` calls made: the `?` inside the action loop returns before the
close calls, so the session is not released on the early-exit path, contrary
to the claim that `close()` is invoked exactly once before the error returns. -/
theorem c2_failure_skips_close :
    (performScraping pdC2 taskC2 st0).isErr = true
    ∧ (performScraping pdC2 taskC2 st0).state.closedBrowser = 0
    ∧ (performScraping pdC2 taskC2 st0).state.closedPage = 0 :=
  ⟨rfl, rfl, rfl⟩

/-! ### C5 -/

/-- C5: at the failing input — a FillCheckbox whose selector resolves to no
element (`query_selector` returns `Ok(None)`) — the executor panics on
`checkbox.unwrap()` instead of returning an ElementError: the `_` arm of the
surrounding match only catches the driver-failure case. -/
theorem c5_fillCheckbox_missing_element_panics :
    (performAction pdBase (.fillCheckbox "cb" true) st0).isPanic = true
    ∧ (performAction pdBase (.fillCheckbox "cb" true) st0).error? = none
    ∧ (performAction pdBase (.fillCheckbox "cb" true) st0).isOk = false :=
  ⟨rfl, rfl, rfl⟩

/-! ### C3 -/

/-- A session where selector `s` matches two elements: the first with no text
content, the second containing "x". -/
def pdC3 : PageDesc :=
  { pdBase with queryAll := fun s => if s = "s" then [elemNone, elemX] else [] }

/-- C3 counterexample: the first matched element's read comes back with no
value and the executor moves on to the SECOND matched element, surfacing its
value "x" — so the claim that a value is read from the first matched element
only and the remaining matched elements are never visited is false at this
input. -/
theorem c3_counterexample :
    readOf none elemNone = .missing
    ∧ readOf none elemX = .value "x"
    ∧ (performAction pdC3 (.extract "s" none) st0).state.output
        = ["this content: x"]
    ∧ (performAction pdC3 (.extract "s" none) st0).isOk = true :=
  ⟨rfl, rfl, rfl, rfl⟩

/-! ### C8 -/

/-- A session whose successful navigations return no response object. -/
def pdC8 : PageDesc := { pdBase with gotoResp := fun _ => none }

/-- C8 counterexample: when navigation succeeds but yields no response object,
DownloadFile panics on `response.unwrap()` — an outcome that is neither a
normal return nor a NavigationError nor an IoError, so the claim that its only
failure outcomes are NavigationError or IoError is false at this input. -/
theorem c8_counterexample :
    (performAction pdC8 (.downloadFile "https://example.test/f.bin" "/tmp/f.bin") st0).isPanic
      = true
    ∧ (performAction pdC8 (.downloadFile "https://example.test/f.bin" "/tmp/f.bin") st0).error?
      = none
    ∧ (performAction pdC8 (.downloadFile "https://example.test/f.bin" "/tmp/f.bin") st0).isOk
      = false :=
  ⟨rfl, rfl, rfl⟩

/-! ### C4 -/

/-- C4: Navigate's tolerance policy — (a) selector resolving to no element is
a silent no-op with the state (so also the navigation-attempt log) unchanged;
(b) an absent or unreadable element attribute is a silent no-op; (c) when the
attribute yields a url and navigating to it fails, the action surfaces a
NavigationError; (d) a NavigationError surfaces only when a navigation was
actually attempted and failed. -/
theorem c4_navigate_policy (pd : PageDesc) (sel attr : String) (st : PageState) :
    (pd.queryOneFails sel = false → pd.queryOne sel = none →
      performAction pd (.navigate sel attr) st = .ok () st)
    ∧ (∀ e, pd.queryOneFails sel = false → pd.queryOne sel = some e →
        (e.attrRead attr = .failed ∨ e.attrRead attr = .missing) →
        performAction pd (.navigate sel attr) st = .ok () st)
    ∧ (∀ e href, pd.queryOneFails sel = false → pd.queryOne sel = some e →
        e.attrRead attr = .value href → pd.gotoFails href = true →
        (performAction pd (.navigate sel attr) st).error? = some .navigationError)
    ∧ (∀ st1, performAction pd (.navigate sel attr) st = .err .navigationError st1 →
        ∃ href, st1.navAttempts = st.navAttempts ++ [href]
          ∧ pd.gotoFails href = true) := by
  refine ⟨?_, ?_, ?_, ?_⟩
  · intro hq ho
    simp [performAction, hq, ho]
  · intro e hq ho hr
    rcases hr with hr | hr <;> simp [performAction, hq, ho, hr]
  · intro e href hq ho hr hg
    simp [performAction, hq, ho, hr, hg, Res.error?]
  · intro st1 h
    by_cases hq : pd.queryOneFails sel
    · simp [performAction, hq] at h
    · cases ho : pd.queryOne sel with
      | none => simp [performAction, hq, ho] at h
      | some e =>
        cases hr : e.attrRead attr with
        | failed => simp [performAction, hq, ho, hr] at h
        | missing => simp [performAction, hq, ho, hr] at h
        | value href =>
          by_cases hg : pd.gotoFails href
          · refine ⟨href, ?_, hg⟩
            simp [performAction, hq, ho, hr, hg] at h
            rw [← h]
          · simp [performAction, hq, ho, hr, hg] at h

/-! ### C3 (amended) -/

/-- Elements whose reads all yield no value are passed over by the Extract
loop. -/
theorem extractLoop_passes_missing (attrName : Option String) (es1 l : List Elem)
    (st : PageState) (h : ∀ e ∈ es1, readOf attrName e = .missing) :
    extractLoop attrName (es1 ++ l) st = extractLoop attrName l st := by
  induction es1 with
  | nil => rfl
  | cons e rest ih =>
    have he : readOf attrName e = .missing := h e (List.mem_cons_self e rest)
    simp only [List.cons_append, extractLoop, he]
    exact ih (fun e1 m => h e1 (List.mem_cons_of_mem e m))

/-- C3 (amended): the Extract executor queries all elements matching the
selector and walks them in declared order; elements whose read yields no
value are passed over, and the first element whose read yields a present
value (empty or not) has that value surfaced, execution of the action stops
there, and the elements after it are never visited — the result does not
depend on them (`es2` is arbitrary). -/
theorem c3_extract_first_present (pd : PageDesc) (sel : String)
    (attrName : Option String) (es1 es2 : List Elem) (e : Elem) (c : String)
    (st : PageState)
    (hq : pd.queryAllFails sel = false)
    (hall : pd.queryAll sel = es1 ++ e :: es2)
    (h1 : ∀ e1 ∈ es1, readOf attrName e1 = .missing)
    (h2 : readOf attrName e = .value c) :
    performAction pd (.extract sel attrName) st
      = .ok () { st with output := st.output ++ ["this content: " ++ c] } := by
  simp only [performAction, hq, Bool.false_eq_true, if_false, hall]
  rw [extractLoop_passes_missing attrName es1 (e :: es2) st h1]
  simp [extractLoop, h2]

/-- A session for the C3 witness: selector `s` matches a valueless element,
then one containing "x", then one containing "never". -/
def pdC3W : PageDesc :=
  { pdBase with
    queryAll := fun s =>
      if s = "s" then [elemNone, elemX, ⟨fun _ => .missing, .value "never"⟩] else [] }

/-- Witness for the amended C3 theorem at a concrete input: the surfaced value
is "x", the second element's content, and the third element is never reached. -/
theorem c3_extract_first_present_witness :
    performAction pdC3W (.extract "s" none) st0
      = .ok () { st0 with output := st0.output ++ ["this content: x"] } :=
  c3_extract_first_present pdC3W "s" none [elemNone]
    [⟨fun _ => .missing, .value "never"⟩] elemX "x" st0 rfl rfl
    (by intro e1 m; simp only [List.mem_singleton] at m; subst m; rfl) rfl

/-- An element handle carrying `href = "https://x"`. -/
def elemHref : Elem :=
  ⟨fun a => if a = "href" then .value "https://x" else .missing, .missing⟩

/-- A session where selector `a` resolves to `elemHref` and navigation to
`https://x` fails. -/
def pdNav : PageDesc :=
  { pdBase with
    queryOne := fun s => if s = "a" then some elemHref else none,
    gotoFails := fun u => u == "https://x" }

/-- Witness for C4 at a concrete input: the attribute of the matched element
resolves to a url the session fails to navigate to, and the action surfaces a
NavigationError. -/
theorem c4_navigate_policy_witness :
    (performAction pdNav (.navigate "a" "href") st0).error?
      = some .navigationError :=
  (c4_navigate_policy pdNav "a" "href" st0).2.2.1 elemHref "https://x" rfl rfl rfl rfl

/-! ### C8 (amended) -/

/-- C8 (amended): DownloadFile navigates to the url, captures the response
body bytes, and writes exactly those bytes to the destination path; every
error it returns is a NavigationError or an IoError — but when a successful
navigation yields no response object it panics instead (see the
counterexample). -/
theorem c8_download (pd : PageDesc) (url path : String) (st : PageState) :
    (∀ body : List Nat, pd.gotoFails url = false →
      pd.gotoResp url = some ⟨false, body⟩ → pd.writeFails path = false →
      ∃ st1, performAction pd (.downloadFile url path) st = .ok () st1
        ∧ st1.files path = some body
        ∧ st1.navAttempts = st.navAttempts ++ [url])
    ∧ (∀ e st1, performAction pd (.downloadFile url path) st = .err e st1 →
        e = .navigationError ∨ e = .ioError) := by
  constructor
  · intro body hg hr hw
    refine ⟨{ st with
        navAttempts := st.navAttempts ++ [url],
        files := fun p => if p = path then some body else st.files p }, ?_, ?_, rfl⟩
    · simp [performAction, hg, hr, hw]
    · simp
  · intro e st1 h
    by_cases hg : pd.gotoFails url = true
    · simp [performAction, hg] at h
      exact Or.inl h.1.symm
    · simp only [Bool.not_eq_true] at hg
      cases hr : pd.gotoResp url with
      | none => simp [performAction, hg, hr] at h
      | some resp =>
        obtain ⟨bf, body⟩ := resp
        cases hbf : bf with
        | true =>
          simp [performAction, hg, hr, hbf] at h
          exact Or.inl h.1.symm
        | false =>
          by_cases hw : pd.writeFails path = true
          · simp [performAction, hg, hr, hbf, hw] at h
            exact Or.inr h.1.symm
          · simp only [Bool.not_eq_true] at hw
            simp [performAction, hg, hr, hbf, hw] at h

/-- A session whose navigations return a response with body bytes 1, 2, 3. -/
def pdDl : PageDesc :=
  { pdBase with gotoResp := fun _ => some ⟨false, [1, 2, 3]⟩ }

/-- Witness for the amended C8 theorem: fetching body bytes 1, 2, 3 produces a
local file at the destination path containing exactly those three bytes. -/
theorem c8_download_witness :
    ∃ st1,
      performAction pdDl (.downloadFile "https://example.test/f.bin" "/tmp/f.bin") st0
        = .ok () st1
      ∧ st1.files "/tmp/f.bin" = some [1, 2, 3]
      ∧ st1.navAttempts = st0.navAttempts ++ ["https://example.test/f.bin"] :=
  (c8_download pdDl "https://example.test/f.bin" "/tmp/f.bin" st0).1 [1, 2, 3] rfl rfl rfl

/-! ### C6 -/

/-- C6: FillCheckbox is idempotent — for every session, selector and target
value, running the action twice in a row adds at most one click to the click
log; and when the checkbox is found and the driver calls succeed, starting
from an unchecked box with target `checked = true` the two runs produce
exactly one click, both return success, and the final checked state is true. -/
theorem c6_fillCheckbox_idempotent (pd : PageDesc) (sel : String) (chk : Bool)
    (st : PageState) :
    (performAction pd (.fillCheckbox sel chk)
        (performAction pd (.fillCheckbox sel chk) st).state).state.clicks.length
      ≤ st.clicks.length + 1
    ∧ (pd.queryOneFails sel = false → (∃ e, pd.queryOne sel = some e) →
        pd.isCheckedFails sel = false → pd.elemClickFails sel = false →
        st.checkboxes sel = false → chk = true →
        (performAction pd (.fillCheckbox sel chk)
            (performAction pd (.fillCheckbox sel chk) st).state).state.clicks.length
          = st.clicks.length + 1
        ∧ (performAction pd (.fillCheckbox sel chk)
            (performAction pd (.fillCheckbox sel chk) st).state).state.checkboxes sel
          = true
        ∧ (performAction pd (.fillCheckbox sel chk) st).isOk = true
        ∧ (performAction pd (.fillCheckbox sel chk)
            (performAction pd (.fillCheckbox sel chk) st).state).isOk = true) := by
  cases hq : pd.queryOneFails sel with
  | true =>
    refine ⟨?_, ?_⟩
    · simp [performAction, hq, Res.state, Nat.le_succ]
    · intro h1; simp [hq] at h1
  | false =>
    cases ho : pd.queryOne sel with
    | none =>
      refine ⟨?_, ?_⟩
      · simp [performAction, hq, ho, Res.state, Nat.le_succ]
      · intro _ h2 _ _ _ _
        obtain ⟨e, he⟩ := h2
        cases he
    | some e =>
      cases hic : pd.isCheckedFails sel with
      | true =>
        refine ⟨?_, ?_⟩
        · simp [performAction, hq, ho, hic, Res.state, Nat.le_succ]
        · intro _ _ h3; simp [hic] at h3
      | false =>
        cases hb : st.checkboxes sel with
        | false =>
          cases hc : chk with
          | false =>
            refine ⟨?_, ?_⟩
            · simp [performAction, hq, ho, hic, hb, Res.state, Nat.le_succ]
            · intro _ _ _ _ _ h6; cases h6
          | true =>
            cases hec : pd.elemClickFails sel with
            | true =>
              refine ⟨?_, ?_⟩
              · simp [performAction, hq, ho, hic, hb, hec, Res.state, Nat.le_succ]
              · intro _ _ _ h4 _ _; simp [hec] at h4
            | false =>
              refine ⟨?_, ?_⟩
              · simp [performAction, hq, ho, hic, hb, hec, Res.state]
              · intro _ _ _ _ _ _
                simp [performAction, hq, ho, hic, hb, hec, Res.state, Res.isOk]
        | true =>
          cases hc : chk with
          | false =>
            cases hec : pd.elemClickFails sel with
            | true =>
              refine ⟨?_, ?_⟩
              · simp [performAction, hq, ho, hic, hb, hec, Res.state, Nat.le_succ]
              · intro _ _ _ _ h5 _; cases h5
            | false =>
              refine ⟨?_, ?_⟩
              · simp [performAction, hq, ho, hic, hb, hec, Res.state]
              · intro _ _ _ _ h5 _; cases h5
          | true =>
            refine ⟨?_, ?_⟩
            · simp [performAction, hq, ho, hic, hb, Res.state, Nat.le_succ]
            · intro _ _ _ _ h5 _; cases h5

/-- A session in which every selector resolves to an element. -/
def pdC6 : PageDesc := { pdBase with queryOne := fun _ => some elemNone }

/-- Witness for C6 at a concrete input: FillCheckbox with `checked = true`
invoked twice against a session whose checkbox starts unchecked produces
exactly one click, both runs succeed, and the final checked state is true. -/
theorem c6_fillCheckbox_idempotent_witness :
    (performAction pdC6 (.fillCheckbox "cb" true)
        (performAction pdC6 (.fillCheckbox "cb" true) st0).state).state.clicks.length
      = st0.clicks.length + 1
    ∧ (performAction pdC6 (.fillCheckbox "cb" true)
        (performAction pdC6 (.fillCheckbox "cb" true) st0).state).state.checkboxes "cb"
      = true
    ∧ (performAction pdC6 (.fillCheckbox "cb" true) st0).isOk = true
    ∧ (performAction pdC6 (.fillCheckbox "cb" true)
        (performAction pdC6 (.fillCheckbox "cb" true) st0).state).isOk = true :=
  (c6_fillCheckbox_idempotent pdC6 "cb" true st0).2 rfl ⟨elemNone, rfl⟩ rfl rfl rfl rfl

/-! ### C7 -/

/-- Behavior of the action loop at the first failing action: when the first
`k` actions run through successfully and the `k`-th action then fails, the
loop returns that error, and exactly the first `k + 1` actions were attempted,
in declared order. -/
theorem runActions_first_err (pd : PageDesc) :
    ∀ (acts : List Action) (k : Nat) (hk : k < acts.length)
      (st stk st1 : PageState) (e : Err),
      runActions pd (acts.take k) st = .ok () stk →
      performAction pd (acts.get ⟨k, hk⟩) stk = .err e st1 →
      runActions pd acts st = .err e st1
      ∧ attemptedActions pd acts st = acts.take (k + 1) := by
  intro acts
  induction acts with
  | nil => intro k hk; exact absurd hk (Nat.not_lt_zero k)
  | cons a rest ih =>
    intro k
    cases k with
    | zero =>
      intro hk st stk st1 e hpre hfail
      simp only [List.take_zero, runActions] at hpre
      injection hpre with h1 h2
      subst h2
      have hfail1 : performAction pd a st = .err e st1 := hfail
      constructor
      · simp only [runActions, hfail1]
      · simp [attemptedActions, hfail1]
    | succ n =>
      intro hk st stk st1 e hpre hfail
      have hk1 : n < rest.length := Nat.lt_of_succ_lt_succ hk
      rw [List.take_succ_cons] at hpre
      cases hpa : performAction pd a st with
      | ok u stA =>
        have hpre1 : runActions pd (rest.take n) stA = .ok () stk := by
          simpa [runActions, hpa] using hpre
        have hfail1 : performAction pd (rest.get ⟨n, hk1⟩) stk = .err e st1 := by
          simpa using hfail
        obtain ⟨h1, h2⟩ := ih n hk1 stA stk st1 e hpre1 hfail1
        constructor
        · simp only [runActions, hpa]
          exact h1
        · simp only [attemptedActions, hpa, List.take_succ_cons]
          rw [h2]
      | err e2 st2 => simp [runActions, hpa] at hpre
      | panic m st2 => simp [runActions, hpa] at hpre

/-- C7: within a task, if the first `k` actions run through successfully and
the `k`-th action fails, then the loop stops there — exactly the actions up to
and including index `k` were attempted, once each, in declared order — and the
failure is surfaced unchanged to the caller of the task-execution operation. -/
theorem c7_first_failure_aborts (pd : PageDesc) (nm : String) (acts : List Action)
    (st stk st1 : PageState) (k : Nat) (hk : k < acts.length) (e : Err)
    (hpre : runActions pd (acts.take k) st = .ok () stk)
    (hfail : performAction pd (acts.get ⟨k, hk⟩) stk = .err e st1) :
    runActions pd acts st = .err e st1
    ∧ attemptedActions pd acts st = acts.take (k + 1)
    ∧ (pd.setupFails = false → performScraping pd ⟨nm, acts⟩ st = .err e st1) := by
  obtain ⟨h1, h2⟩ := runActions_first_err pd acts k hk st stk st1 e hpre hfail
  refine ⟨h1, h2, ?_⟩
  intro hs
  simp [performScraping, hs, h1]

/-- A session where every `click_builder(..).click()` call fails (C7 witness). -/
def pdC7 : PageDesc := { pdBase with clickFails := fun _ => true }

/-- The C7 witness task actions: the second of three actions fails. -/
def actsC7 : List Action := [.wait 5, .click "bad", .goTo "u"]

/-- Witness for C7 at a concrete input: a three-action task failing at index 1
attempts exactly the first two actions, and the task-execution operation
surfaces the element error of the failing click. -/
theorem c7_first_failure_aborts_witness :
    runActions pdC7 actsC7 st0 = .err (.elementError "bad") st0
    ∧ attemptedActions pdC7 actsC7 st0 = actsC7.take 2
    ∧ performScraping pdC7 ⟨"t", actsC7⟩ st0 = .err (.elementError "bad") st0 := by
  obtain ⟨h1, h2, h3⟩ :=
    c7_first_failure_aborts pdC7 "t" actsC7 st0 st0 st0 1 (by decide)
      (.elementError "bad") rfl rfl
  exact ⟨h1, h2, h3 rfl⟩

/-! ### C9 -/

/-- A successful `mapExcept` converts every entry, pointwise in order. -/
theorem mapExcept_ok {α β : Type} (f : α → Except ParseError β) :
    ∀ (xs : List α) (ys : List β), mapExcept f xs = .ok ys →
      List.Forall₂ (fun x y => f x = .ok y) xs ys := by
  intro xs
  induction xs with
  | nil =>
    intro ys h
    simp only [mapExcept] at h
    injection h with h1
    subst h1
    exact List.Forall₂.nil
  | cons x rest ih =>
    intro ys h
    simp only [mapExcept] at h
    cases hf : f x with
    | error e => rw [hf] at h; cases h
    | ok y =>
      rw [hf] at h
      cases hm : mapExcept f rest with
      | error e => rw [hm] at h; cases h
      | ok ys1 =>
        rw [hm] at h
        injection h with h1
        subst h1
        exact List.Forall₂.cons hf (ih ys1 hm)

/-- A `mapExcept` over a list with a failing entry fails. -/
theorem mapExcept_error_of_mem {α β : Type} (f : α → Except ParseError β)
    (xs : List α) (x : α) (e : ParseError) (hx : x ∈ xs) (hf : f x = .error e) :
    ∃ e1, mapExcept f xs = .error e1 := by
  induction xs with
  | nil => cases hx
  | cons a rest ih =>
    rcases List.mem_cons.mp hx with h | h
    · subst h
      exact ⟨e, by simp [mapExcept, hf]⟩
    · cases ha : f a with
      | error e2 => exact ⟨e2, by simp [mapExcept, ha]⟩
      | ok y =>
        obtain ⟨e1, h1⟩ := ih h
        exact ⟨e1, by simp [mapExcept, ha, h1]⟩

/-- C9: loading a task document is all-or-nothing — a successful load converts
every entry of the document, in order, into its parsed task (so the result is
the complete task sequence, never a proper prefix), and any entry that fails
to parse (malformed object, unknown action discriminant, missing required
field) makes the whole load fail with a ParseError, yielding no tasks. -/
theorem c9_load_all_or_nothing (entries : List Json) :
    (∀ ts, loadJson (.arr entries) = .ok ts →
      ts.length = entries.length
      ∧ List.Forall₂ (fun j t => parseTask j = .ok t) entries ts)
    ∧ (∀ j e, j ∈ entries → parseTask j = .error e →
      ∃ e1, loadJson (.arr entries) = .error e1) := by
  constructor
  · intro ts h
    have h2 := mapExcept_ok parseTask entries ts h
    exact ⟨(List.Forall₂.length_eq h2).symm, h2⟩
  · intro j e hj hje
    exact mapExcept_error_of_mem parseTask entries j e hj hje

/-- A task document entry whose single action carries a discriminant that is
not among the 14 known variants. -/
def badTaskJson : Json :=
  .obj [("name", .str "T"), ("actions", .arr [.obj [("Frobnicate", .obj [])]])]

/-- Witness for C9 at a concrete input: a document whose one task holds an
action with an unknown discriminant fails to load — no tasks are produced. -/
theorem c9_load_all_or_nothing_witness :
    ∃ e1, loadJson (.arr [badTaskJson]) = .error e1 :=
  (c9_load_all_or_nothing [badTaskJson]).2 badTaskJson ⟨"unknown variant"⟩
    (List.mem_singleton.mpr rfl) rfl

end Autoscrap
